import Mathlib

/-
Shallow embedding of tensorbase/base.py (Kongsea/TensorBase).

Python dicts over string keys are modelled as association lists
(List (String × PyVal)) where dinsert replaces in place (as d[k] = v does)
and dlookup returns the first binding.  Heavyweight framework objects
(tensors, sessions, savers) are irrelevant to the verified properties and
are not modelled; variables are represented by their op names, images and
labels by rational numbers.
-/

namespace TensorBase

/-- Values stored in configuration dictionaries: Python None, ints and strings. -/
inductive PyVal where
  | pynone : PyVal
  | int : Int → PyVal
  | str : String → PyVal
deriving DecidableEq, Repr

/-- A Python dict with string keys, as an association list (first binding wins). -/
abbrev Dict := List (String × PyVal)

/-- Python d.get(k) / d[k]: the first binding for k, if any. -/
def dlookup : Dict → String → Option PyVal
  | [], _ => Option.none
  | (k, v) :: rest, key => if k = key then some v else dlookup rest key

/-- Python `k in d`. -/
def dcontains (d : Dict) (k : String) : Bool := (dlookup d k).isSome

/-- Python d[k] = v: replace the binding in place if present, else append. -/
def dinsert : Dict → String → PyVal → Dict
  | [], key, v => [(key, v)]
  | (k, w) :: rest, key, v =>
    if k = key then (k, v) :: rest else (k, w) :: dinsert rest key v

/-- Model._merge_a_into_b_simple: for k, v in a.items(): b[k] = v; return b. -/
def merge_a_into_b_simple (a b : Dict) : Dict :=
  a.foldl (fun acc kv => dinsert acc kv.1 kv.2) b

/-- Exceptions of Model._merge_a_into_b: KeyError for an unknown key,
ValueError for a type mismatch. -/
inductive MergeErr where
  | keyError : MergeErr
  | valueError : MergeErr
deriving DecidableEq, Repr

/-- The Python type tag of a value, for the type(b[k]) is not type(v) check. -/
def pyType : PyVal → Nat
  | PyVal.pynone => 0
  | PyVal.int _ => 1
  | PyVal.str _ => 2

/-- Model._merge_a_into_b on flat dicts: walks the items of a; a key of a
absent from b raises KeyError, a type mismatch raises ValueError, otherwise
b[k] = v.  b is mutated in place, so on an exception the partially merged b
is returned together with the error (the nested-edict recursion and the
ndarray coercion concern values that do not occur in the modelled dicts). -/
def merge_a_into_b : Dict → Dict → Dict × Option MergeErr
  | [], b => (b, Option.none)
  | (k, v) :: rest, b =>
    match dlookup b k with
    | Option.none => (b, some MergeErr.keyError)
    | some w =>
      if pyType w = pyType v then merge_a_into_b rest (dinsert b k v)
      else (b, some MergeErr.valueError)

/-- Model.load_config_yaml.  `yaml` is the parsed contents of the file named
by flags["YAML_FILE"] (Option.none when "YAML_FILE" is absent from flags, in
which case the lookup raises KeyError).  The try/except catches only
KeyError — both the missing "YAML_FILE" key and a KeyError raised inside
cfg_from_file / _merge_a_into_b — and then returns the (possibly partially
mutated) config_dict; a ValueError propagates to the caller. -/
def load_config_yaml (flags : Dict) (yaml : Option Dict) (config_dict : Option Dict) :
    Except MergeErr Dict :=
  match config_dict with
  | Option.none => Except.ok flags
  | some cd =>
    match yaml with
    | Option.none => Except.ok cd
    | some y =>
      match merge_a_into_b y cd with
      | (cd2, some MergeErr.keyError) => Except.ok cd2
      | (_, some MergeErr.valueError) => Except.error MergeErr.valueError
      | (cyd, Option.none) => Except.ok (merge_a_into_b_simple flags cyd)

/-- One defaulting step of Model.check_dict_keys:
if key not in d: d[key] = default value. -/
def fill_default (d : Dict) (k : String) (v : PyVal) : Dict :=
  if dcontains d k then d else dinsert d k v

/-- The defaulting part of Model.check_dict_keys, in source order: the
optional-key loop fills each absent optional key with None, then RUN_NUM
defaults to 0 and NUM_EPOCHS to 1. -/
def fill_defaults (d : Dict) : Dict :=
  let d1 := ["RESTORE_SLIM_FILE", "RESTORE_META", "RESTORE_SLIM", "SEED", "GPU"].foldl
    (fun acc k => fill_default acc k PyVal.pynone) d
  let d2 := fill_default d1 "RUN_NUM" (PyVal.int 0)
  fill_default d2 "NUM_EPOCHS" (PyVal.int 1)

/-- Model.check_dict_keys: exit (modelled as Except.error) when a crucial key
is missing; otherwise fill each absent optional key with None, default
RUN_NUM to 0 and NUM_EPOCHS to 1, and return the dict. -/
def check_dict_keys (d : Dict) : Except Unit Dict :=
  if dcontains d "MODEL_DIRECTORY" = false then Except.error ()
  else if dcontains d "SAVE_DIRECTORY" = false then Except.error ()
  else Except.ok (fill_defaults d)

/-- Python list slicing xs[start:stop] (non-negative indices). -/
def pySlice {α : Type} (xs : List α) (start stop : Nat) : List α :=
  (xs.take stop).drop start

/-- Data.img_norm: (x * (1 / max_val) - 0.5) * 2, max_val defaulting to 255. -/
def img_norm (x : ℚ) (max_val : ℚ := 255) : ℚ :=
  (x * (1 / max_val) - 0.5) * 2

/-- Elementwise img_norm on an image stack. -/
def img_norm_list (xs : List ℚ) : List ℚ := xs.map (fun x => img_norm x)

/-- The mutable attributes of a Data object set in Data.__init__. -/
structure DataState where
  train_images : List ℚ
  train_labels : List ℚ
  valid_images : List ℚ
  valid_labels : List ℚ
  test_images : List ℚ
  test_labels : List ℚ
  num_train_images : Nat
  num_valid_images : Nat
  num_test_images : Nat
  train_epochs_completed : Nat
  index_in_train_epoch : Nat
  index_in_valid_epoch : Nat
  index_in_test_epoch : Nat
deriving DecidableEq, Repr

/-- The tuple returned by next_valid_batch / next_test_batch:
(labels slice, normalized images slice, end cursor, effective batch size). -/
structure BatchResult where
  labels : List ℚ
  images : List ℚ
  endPos : Nat
  batch : Nat
deriving DecidableEq, Repr

/-- Data.next_valid_batch: clamp batch_size to 1 when the advance would
overrun the partition, advance the cursor by the (possibly clamped) size and
return the slices together with the new cursor and the effective size. -/
def next_valid_batch (s : DataState) (batch_size : Nat) : DataState × BatchResult :=
  let start := s.index_in_valid_epoch
  let bs := if s.index_in_valid_epoch + batch_size > s.num_valid_images then 1 else batch_size
  let idx := s.index_in_valid_epoch + bs
  ({ s with index_in_valid_epoch := idx },
   { labels := pySlice s.valid_labels start idx,
     images := img_norm_list (pySlice s.valid_images start idx),
     endPos := idx, batch := bs })

/-- Data.next_test_batch: identical cursor logic to next_valid_batch on the
test partition. -/
def next_test_batch (s : DataState) (batch_size : Nat) : DataState × BatchResult :=
  let start := s.index_in_test_epoch
  let bs := if s.index_in_test_epoch + batch_size > s.num_test_images then 1 else batch_size
  let idx := s.index_in_test_epoch + bs
  ({ s with index_in_test_epoch := idx },
   { labels := pySlice s.test_labels start idx,
     images := img_norm_list (pySlice s.test_images start idx),
     endPos := idx, batch := bs })

/-- Application of a numpy index permutation: xs[perm]. -/
def applyPerm (perm : List Nat) (xs : List ℚ) : List ℚ :=
  perm.map (fun i => xs.getD i 0)

/-- Data.next_train_batch.  np.random.shuffle is modelled by the index
permutation `perm` supplied by the caller; the rollover branch applies it to
images and labels alike, increments train_epochs_completed, restarts the
cursor at batch_size and asserts batch_size <= num_train_images (an
AssertionError is Except.error).  Returns (labels, normalized images). -/
def next_train_batch (s : DataState) (batch_size : Nat) (perm : List Nat) :
    Except Unit (DataState × List ℚ × List ℚ) :=
  let start := s.index_in_train_epoch
  let idx := s.index_in_train_epoch + batch_size
  if idx > s.num_train_images then
    if batch_size ≤ s.num_train_images then
      let ti := applyPerm perm s.train_images
      let tl := applyPerm perm s.train_labels
      Except.ok ({ s with train_epochs_completed := s.train_epochs_completed + 1,
                          train_images := ti, train_labels := tl,
                          index_in_train_epoch := batch_size },
                 pySlice tl 0 batch_size, img_norm_list (pySlice ti 0 batch_size))
    else Except.error ()
  else
    Except.ok ({ s with index_in_train_epoch := idx },
               pySlice s.train_labels start idx,
               img_norm_list (pySlice s.train_images start idx))

/-- k successive calls of next_train_batch with the same requested size,
concatenating the returned label batches in call order. -/
def run_train (B : Nat) (perm : List Nat) : Nat → DataState → Except Unit (DataState × List ℚ)
  | 0, s => Except.ok (s, [])
  | Nat.succ k, s =>
    match next_train_batch s B perm with
    | Except.error e => Except.error e
    | Except.ok (s1, labs, _) =>
      match run_train B perm k s1 with
      | Except.error e => Except.error e
      | Except.ok (s2, acc) => Except.ok (s2, labs ++ acc)

/-- Python str.startswith, computed on the character lists underlying the
strings. -/
def pyStartsWith (s p : String) : Bool := p.data.isPrefixOf s.data

/-- Python s[n:] on a string. -/
def pyDropStr (s : String) (n : Nat) : String := String.mk (s.data.drop n)

/-- Model.name_in_checkpoint on the op name of a variable: strips a leading
"model/" (var.op.name[len("model/"):]), and implicitly returns None when the
name does not start with it. -/
def name_in_checkpoint (opName : String) : Option String :=
  if pyStartsWith opName "model/" then some (pyDropStr opName 6) else Option.none

/-- The dict comprehension of Model._restore_slim: the checkpoint variable
map is represented by its (string) key list, so the membership test
name_in_checkpoint(v) in variables_to_restore is false whenever
name_in_checkpoint(v) is None. -/
def restore_slim_selected (ckpt : List String) (modelVars : List String) :
    List (String × String) :=
  modelVars.filterMap (fun v =>
    match name_in_checkpoint v with
    | some n => if n ∈ ckpt then some (n, v) else Option.none
    | Option.none => Option.none)

/-- Python `d is []`: object-identity comparison of a dict with a freshly
allocated list literal.  It is False for every dict, the empty one included. -/
def pyIsEmptyListLiteral {α : Type} (_ : α) : Bool := false

/-- Outcome of Model._restore_slim: the selected (checkpoint name, variable)
pairs and whether the exit() branch ran. -/
structure RestoreSlimOutcome where
  selected : List (String × String)
  exited : Bool
deriving DecidableEq, Repr

/-- Model._restore_slim: builds the selection and exits only when
`variables_to_restore is []` holds; otherwise it proceeds to build a Saver
from the selection and restore. -/
def restore_slim (ckpt : List String) (modelVars : List String) : RestoreSlimOutcome :=
  let sel := restore_slim_selected ckpt modelVars
  if pyIsEmptyListLiteral sel then { selected := sel, exited := true }
  else { selected := sel, exited := false }

/-- Layers.__init__ layer-kind counters:
count = ("conv", "deconv", "fc", "flat", "mp", "up", "ap", "rn" all 0). -/
structure LayersCount where
  conv : Nat
  deconv : Nat
  fc : Nat
  flat : Nat
  mp : Nat
  up : Nat
  ap : Nat
  rn : Nat
deriving DecidableEq, Repr

/-- The fresh counter dictionary of Layers.__init__. -/
def init_count : LayersCount := ⟨0, 0, 0, 0, 0, 0, 0, 0⟩

/-- Scope naming of Layers.conv2d: increment count["conv"], then
scope = "conv_" + str(count["conv"]). -/
def conv2d_scope (c : LayersCount) : LayersCount × String :=
  let c2 := { c with conv := c.conv + 1 }
  (c2, "conv_" ++ toString c2.conv)

/-- Scope naming of Layers.maxpool: increment count["mp"], then
scope = "maxpool_" + str(count["mp"]). -/
def maxpool_scope (c : LayersCount) : LayersCount × String :=
  let c2 := { c with mp := c.mp + 1 }
  (c2, "maxpool_" ++ toString c2.mp)

/-- Scope naming of Layers.avgpool: increment count["ap"], but build
scope = "avgpool_" + str(count["mp"]) — from the maxpool counter, exactly as
the source line reads. -/
def avgpool_scope (c : LayersCount) : LayersCount × String :=
  let c2 := { c with ap := c.ap + 1 }
  (c2, "avgpool_" ++ toString c2.mp)

/-- The per-layer arguments of one Layers.conv2d / Layers.deconv2d call.
The activation function is represented by its name. -/
structure ConvParams where
  filter_size : Int
  output_channels : Int
  stride : Int
  padding : String
  activation_fn : String
  b_value : Int
  s_value : Int
  bn : Bool
deriving DecidableEq, Repr

/-- The Layers builder: the per-kind counters plus the operations appended so
far, each recorded as (scope name, parameters).  The running tensor itself is
framework state and is not modelled. -/
structure Builder where
  count : LayersCount
  ops : List (String × ConvParams)
deriving DecidableEq, Repr

/-- Layers.conv2d as a builder step: pick the conv-scoped name and append the
operation. -/
def conv2d (b : Builder) (p : ConvParams) : Builder :=
  let (c2, scope) := conv2d_scope b.count
  { count := c2, ops := b.ops ++ [(scope, p)] }

/-- Layers.deconv2d as a builder step: increment count["deconv"], name the
scope "deconv_" + str(count["deconv"]) and append the operation. -/
def deconv2d (b : Builder) (p : ConvParams) : Builder :=
  let c2 := { b.count with deconv := b.count.deconv + 1 }
  { count := c2, ops := b.ops ++ [("deconv_" ++ toString c2.deconv, p)] }

/-- The row of per-layer asserts of Layers.convnet / Layers.deconvnet, after
the None defaults have been filled in (so each defaulted list has length
depth by construction and only the supplied lists can fail). -/
def lens_ok (depth : Nat) (oc : List Int) (st : List Int) (pd : List String)
    (af : List String) (bv : List Int) (sv : List Int) (bn : List Bool) : Prop :=
  oc.length = depth ∧ st.length = depth ∧ pd.length = depth ∧
  af.length = depth ∧ bv.length = depth ∧ sv.length = depth ∧ bn.length = depth

instance (depth : Nat) (oc : List Int) (st : List Int) (pd : List String)
    (af : List String) (bv : List Int) (sv : List Int) (bn : List Bool) :
    Decidable (lens_ok depth oc st pd af bv sv bn) := by
  unfold lens_ok; infer_instance

/-- The l-th conv2d call made by the convnet loop, reading the l-th entry of
every (defaulted) argument list. -/
def nth_params (fs : List Int) (oc : List Int) (st : List Int) (pd : List String)
    (af : List String) (bv : List Int) (sv : List Int) (bn : List Bool) (l : Nat) :
    ConvParams :=
  { filter_size := fs.getD l 0, output_channels := oc.getD l 0,
    stride := st.getD l 0, padding := pd.getD l "",
    activation_fn := af.getD l "", b_value := bv.getD l 0,
    s_value := sv.getD l 0, bn := bn.getD l true }

/-- Layers.convnet: depth = len(filter_size); every argument left as None is
defaulted to a depth-length list (np.ones, ["SAME"]*depth, [tf.nn.relu]*depth,
np.zeros, np.ones, [True]*depth); the asserts compare every list length with
depth and an AssertionError (Except.error) aborts before the loop builds any
layer; otherwise conv2d is called once per l in range(depth) with the l-th
entries. -/
def convnet (b : Builder) (filter_size : List Int) (output_channels : List Int)
    (stride : Option (List Int)) (padding : Option (List String))
    (activation_fn : Option (List String)) (b_value : Option (List Int))
    (s_value : Option (List Int)) (bn : Option (List Bool)) :
    Except Unit Builder :=
  let depth := filter_size.length
  let st := stride.getD (List.replicate depth 1)
  let pd := padding.getD (List.replicate depth "SAME")
  let af := activation_fn.getD (List.replicate depth "relu")
  let bv := b_value.getD (List.replicate depth 0)
  let sv := s_value.getD (List.replicate depth 1)
  let bnl := bn.getD (List.replicate depth true)
  if lens_ok depth output_channels st pd af bv sv bnl then
    Except.ok ((List.range depth).foldl
      (fun bb l => conv2d bb (nth_params filter_size output_channels st pd af bv sv bnl l)) b)
  else Except.error ()

/-- Layers.deconvnet: same validation as convnet (depth = len(filter_sizes)),
then one deconv2d call per l in range(depth). -/
def deconvnet (b : Builder) (filter_sizes : List Int) (output_channels : List Int)
    (strides : Option (List Int)) (padding : Option (List String))
    (activation_fn : Option (List String)) (b_value : Option (List Int))
    (s_value : Option (List Int)) (bn : Option (List Bool)) :
    Except Unit Builder :=
  let depth := filter_sizes.length
  let st := strides.getD (List.replicate depth 1)
  let pd := padding.getD (List.replicate depth "SAME")
  let af := activation_fn.getD (List.replicate depth "relu")
  let bv := b_value.getD (List.replicate depth 0)
  let sv := s_value.getD (List.replicate depth 1)
  let bnl := bn.getD (List.replicate depth true)
  if lens_ok depth output_channels st pd af bv sv bnl then
    Except.ok ((List.range depth).foldl
      (fun bb l => deconv2d bb (nth_params filter_sizes output_channels st pd af bv sv bnl l)) b)
  else Except.error ()

/-- Concrete Data state used to exercise the valid/test clamping behaviour. -/
def c2_state : DataState :=
  { train_images := [], train_labels := [], valid_images := [3, 4, 5],
    valid_labels := [1, 2, 3], test_images := [6], test_labels := [9],
    num_train_images := 0, num_valid_images := 3, num_test_images := 1,
    train_epochs_completed := 0, index_in_train_epoch := 0,
    index_in_valid_epoch := 2, index_in_test_epoch := 1 }

/-- Concrete Data state with a fresh train epoch of size 4. -/
def c3_state : DataState :=
  { train_images := [0, 0, 0, 0], train_labels := [1, 2, 3, 4],
    valid_images := [], valid_labels := [], test_images := [], test_labels := [],
    num_train_images := 4, num_valid_images := 0, num_test_images := 0,
    train_epochs_completed := 0, index_in_train_epoch := 0,
    index_in_valid_epoch := 0, index_in_test_epoch := 0 }

/-- Concrete Data state with a fresh train epoch of size 3, for batch size 2
(a batch size that does not divide the partition size). -/
def c3_ce_state : DataState :=
  { train_images := [0, 0, 0], train_labels := [10, 20, 30],
    valid_images := [], valid_labels := [], test_images := [], test_labels := [],
    num_train_images := 3, num_valid_images := 0, num_test_images := 0,
    train_epochs_completed := 0, index_in_train_epoch := 0,
    index_in_valid_epoch := 0, index_in_test_epoch := 0 }

/-- Concrete Data state whose valid cursor (3) already exceeds the valid
partition size (2). -/
def c4_ce_state : DataState :=
  { train_images := [], train_labels := [], valid_images := [5, 6],
    valid_labels := [7, 8], test_images := [], test_labels := [],
    num_train_images := 0, num_valid_images := 2, num_test_images := 0,
    train_epochs_completed := 0, index_in_train_epoch := 0,
    index_in_valid_epoch := 3, index_in_test_epoch := 0 }

/-- Concrete Data state used to exercise both branches of next_train_batch:
train partition of size 2 with the cursor at 0. -/
def c4_state : DataState :=
  { train_images := [0, 0], train_labels := [1, 2],
    valid_images := [3], valid_labels := [4], test_images := [5], test_labels := [6],
    num_train_images := 2, num_valid_images := 1, num_test_images := 1,
    train_epochs_completed := 0, index_in_train_epoch := 0,
    index_in_valid_epoch := 0, index_in_test_epoch := 0 }

/-- Concrete Data state whose train cursor (2) forces a rollover for batch
size 1 on a train partition of size 2. -/
def c4_ro_state : DataState :=
  { train_images := [0, 0], train_labels := [1, 2],
    valid_images := [3], valid_labels := [4], test_images := [5], test_labels := [6],
    num_train_images := 2, num_valid_images := 1, num_test_images := 1,
    train_epochs_completed := 0, index_in_train_epoch := 2,
    index_in_valid_epoch := 0, index_in_test_epoch := 0 }

/-- C1 (code bug): with flags {"A": 1}, no YAML file named, and config dict
{"B": 4}, load_config_yaml returns the config dict alone — the flags are
dropped, although the docstring says both dicts are overridden with the flags
dict and the branch prints "Using only input flags and config file.".  The
flags-over-dict merge the spec describes would give {"B": 4, "A": 1}, which
is exactly what _merge_a_into_b_simple applied to these two dicts produces. -/
theorem C1_load_config_yaml_drops_flags :
    load_config_yaml [("A", PyVal.int 1)] Option.none (some [("B", PyVal.int 4)])
      = Except.ok [("B", PyVal.int 4)] ∧
    dcontains [("B", PyVal.int 4)] "A" = false ∧
    merge_a_into_b_simple [("A", PyVal.int 1)] [("B", PyVal.int 4)]
      = [("B", PyVal.int 4), ("A", PyVal.int 1)] := by
  refine ⟨rfl, rfl, rfl⟩

/-- C2: when the requested size would overrun the valid (resp. test)
partition, next_valid_batch (resp. next_test_batch) returns an effective
batch size of exactly 1 and advances its cursor by exactly 1 rather than by
the request; and for every state and request the returned tuple carries the
new cursor position and the effective batch size actually used. -/
theorem C2_next_batch_clamp (s t : DataState) (n m : Nat)
    (hv : s.num_valid_images < s.index_in_valid_epoch + n)
    (ht : s.num_test_images < s.index_in_test_epoch + n) :
    ((next_valid_batch s n).2.batch = 1 ∧
     (next_valid_batch s n).1.index_in_valid_epoch = s.index_in_valid_epoch + 1) ∧
    ((next_test_batch s n).2.batch = 1 ∧
     (next_test_batch s n).1.index_in_test_epoch = s.index_in_test_epoch + 1) ∧
    ((next_valid_batch t m).2.endPos = (next_valid_batch t m).1.index_in_valid_epoch ∧
     (next_valid_batch t m).1.index_in_valid_epoch
       = t.index_in_valid_epoch + (next_valid_batch t m).2.batch) ∧
    ((next_test_batch t m).2.endPos = (next_test_batch t m).1.index_in_test_epoch ∧
     (next_test_batch t m).1.index_in_test_epoch
       = t.index_in_test_epoch + (next_test_batch t m).2.batch) := by
  refine ⟨⟨?_, ?_⟩, ⟨?_, ?_⟩, ⟨rfl, rfl⟩, ⟨rfl, rfl⟩⟩ <;>
    simp [next_valid_batch, next_test_batch, hv, ht]

/-- Closed instance of C2_next_batch_clamp at c2_state with request 5. -/
theorem C2_witness :
    (((next_valid_batch c2_state 5).2.batch = 1 ∧
      (next_valid_batch c2_state 5).1.index_in_valid_epoch
        = c2_state.index_in_valid_epoch + 1) ∧
     ((next_test_batch c2_state 5).2.batch = 1 ∧
      (next_test_batch c2_state 5).1.index_in_test_epoch
        = c2_state.index_in_test_epoch + 1) ∧
     ((next_valid_batch c2_state 5).2.endPos
        = (next_valid_batch c2_state 5).1.index_in_valid_epoch ∧
      (next_valid_batch c2_state 5).1.index_in_valid_epoch
        = c2_state.index_in_valid_epoch + (next_valid_batch c2_state 5).2.batch) ∧
     ((next_test_batch c2_state 5).2.endPos
        = (next_test_batch c2_state 5).1.index_in_test_epoch ∧
      (next_test_batch c2_state 5).1.index_in_test_epoch
        = c2_state.index_in_test_epoch + (next_test_batch c2_state 5).2.batch)) :=
  C2_next_batch_clamp c2_state c2_state 5 5 (by decide) (by decide)

/-- C6 (code bug): the guard "variables_to_restore is []" in
Model._restore_slim compares a dict with a freshly allocated list literal by
object identity and is therefore always False, so even when no model variable
name matches the checkpoint the function does not log-and-exit: it proceeds
with the empty selection instead of the documented fatal stop. -/
theorem C6_restore_slim_never_exits (ckpt modelVars : List String) :
    (restore_slim ckpt modelVars).exited = false ∧
    restore_slim ["weights"] ["other/weights"]
      = { selected := [], exited := false } := by
  exact ⟨rfl, by decide⟩

/-- C7 (code bug): Layers.avgpool builds its scope name from count["mp"], the
maxpool counter, although it increments count["ap"], so two successive
avgpool calls on a fresh builder are both given the scope name "avgpool_0":
the generated names collide.  The conv2d counter behaves as the claim
describes, giving "conv_1" then "conv_2". -/
theorem C7_avgpool_name_collision :
    (avgpool_scope init_count).2 = "avgpool_0" ∧
    (avgpool_scope (avgpool_scope init_count).1).2 = "avgpool_0" ∧
    (avgpool_scope (avgpool_scope init_count).1).1.ap = 2 ∧
    (conv2d_scope init_count).2 = "conv_1" ∧
    (conv2d_scope (conv2d_scope init_count).1).2 = "conv_2" := by
  refine ⟨rfl, rfl, rfl, rfl, rfl⟩

/-- C9: img_norm computes (x/255 - 0.5) * 2 elementwise; it maps 0 to -1,
255 to 1 and 127.5 to 0, and every input in [0, 255] lands in [-1, 1]. -/
theorem C9_img_norm_range (x : ℚ) (h0 : 0 ≤ x) (h255 : x ≤ 255) :
    img_norm 0 = -1 ∧ img_norm 255 = 1 ∧ img_norm 127.5 = 0 ∧
    -1 ≤ img_norm x ∧ img_norm x ≤ 1 := by
  refine ⟨by norm_num [img_norm], by norm_num [img_norm], by norm_num [img_norm], ?_, ?_⟩ <;>
  · unfold img_norm
    nlinarith [h0, h255]

/-- Closed instance of C9_img_norm_range at x = 51. -/
theorem C9_witness :
    img_norm 0 = -1 ∧ img_norm 255 = 1 ∧ img_norm 127.5 = 0 ∧
    -1 ≤ img_norm 51 ∧ img_norm 51 ≤ 1 :=
  C9_img_norm_range 51 (by norm_num) (by norm_num)

/-- C10: name_in_checkpoint yields None for every op name that does not start
with "model/", and _restore_slim selects a pair only when the variable name
starts with "model/" and the name with the prefix removed occurs among the
checkpoint variable names; so an unprefixed variable is never slim-restored. -/
theorem C10_slim_restore_prefix_filter (ckpt modelVars : List String) (v : String)
    (p : String × String)
    (hv : pyStartsWith v "model/" = false)
    (hp : p ∈ restore_slim_selected ckpt modelVars) :
    name_in_checkpoint v = Option.none ∧
    pyStartsWith p.2 "model/" = true ∧
    name_in_checkpoint p.2 = some p.1 ∧
    p.1 = pyDropStr p.2 6 ∧
    p.1 ∈ ckpt ∧
    p.2 ∈ modelVars := by
  obtain ⟨a, ha, hfa⟩ := List.mem_filterMap.mp hp
  have hfa2 : (match name_in_checkpoint a with
      | some n => if n ∈ ckpt then some (n, a) else Option.none
      | Option.none => Option.none) = some p := hfa
  cases hnc : name_in_checkpoint a with
  | none =>
    rw [hnc] at hfa2
    exact absurd hfa2 (by simp)
  | some n =>
    rw [hnc] at hfa2
    dsimp only at hfa2
    by_cases hm : n ∈ ckpt
    · rw [if_pos hm] at hfa2
      injection hfa2 with hpa
      subst hpa
      have hs : pyStartsWith a "model/" = true := by
        by_contra hns
        simp only [Bool.not_eq_true] at hns
        simp [name_in_checkpoint, hns] at hnc
      have hdrop : n = pyDropStr a 6 := by
        simp [name_in_checkpoint, hs] at hnc
        exact hnc.symm
      exact ⟨by simp [name_in_checkpoint, hv], hs, hnc, hdrop, hm, ha⟩
    · rw [if_neg hm] at hfa2
      exact absurd hfa2 (by simp)

/-- Closed instance of C10_slim_restore_prefix_filter: checkpoint {"w"},
model variables ["model/w", "x"]. -/
theorem C10_witness :
    name_in_checkpoint "x" = Option.none ∧
    pyStartsWith "model/w" "model/" = true ∧
    name_in_checkpoint "model/w" = some "w" ∧
    "w" = pyDropStr "model/w" 6 ∧
    "w" ∈ ["w"] ∧
    "model/w" ∈ ["model/w", "x"] :=
  C10_slim_restore_prefix_filter ["w"] ["model/w", "x"] "x" ("w", "model/w")
    (by decide) (by decide)

/-- A Python slice is a take of a drop. -/
theorem pySlice_eq {α : Type} (l : List α) (a b : Nat) :
    pySlice l a b = (l.drop a).take (b - a) := by
  simp [pySlice, List.drop_take]

/-- Characterization of next_train_batch when the advance stays within the
partition: the cursor advances by batch_size and nothing else changes. -/
theorem next_train_batch_no_rollover (s : DataState) (B : Nat) (perm : List Nat)
    (h : s.index_in_train_epoch + B ≤ s.num_train_images) :
    next_train_batch s B perm
      = Except.ok ({ s with index_in_train_epoch := s.index_in_train_epoch + B },
          pySlice s.train_labels s.index_in_train_epoch (s.index_in_train_epoch + B),
          img_norm_list (pySlice s.train_images s.index_in_train_epoch
            (s.index_in_train_epoch + B))) := by
  have hnr : ¬ (s.index_in_train_epoch + B > s.num_train_images) := by omega
  simp only [next_train_batch, if_neg hnr]

/-- Characterization of next_train_batch when the advance would exceed the
partition: the epoch counter increments, images and labels are reshuffled
with the same permutation, and the cursor restarts at batch_size. -/
theorem next_train_batch_rollover (s : DataState) (B : Nat) (perm : List Nat)
    (h1 : s.num_train_images < s.index_in_train_epoch + B)
    (h2 : B ≤ s.num_train_images) :
    next_train_batch s B perm
      = Except.ok ({ s with train_epochs_completed := s.train_epochs_completed + 1,
                            train_images := applyPerm perm s.train_images,
                            train_labels := applyPerm perm s.train_labels,
                            index_in_train_epoch := B },
          pySlice (applyPerm perm s.train_labels) 0 B,
          img_norm_list (pySlice (applyPerm perm s.train_images) 0 B)) := by
  have hgt : s.index_in_train_epoch + B > s.num_train_images := h1
  simp only [next_train_batch, if_pos hgt, if_pos h2]

/-- A run of k train batches that stays within the partition advances the
cursor by k * B, changes nothing else, and collects exactly the next k * B
labels in order. -/
theorem run_train_no_rollover (B : Nat) (perm : List Nat) :
    ∀ (k : Nat) (s : DataState),
      s.index_in_train_epoch + k * B ≤ s.num_train_images →
      run_train B perm k s
        = Except.ok ({ s with index_in_train_epoch := s.index_in_train_epoch + k * B },
            (s.train_labels.drop s.index_in_train_epoch).take (k * B)) := by
  intro k
  induction k with
  | zero =>
    intro s _
    simp [run_train]
  | succ k ih =>
    intro s hs
    have hsm : (k + 1) * B = B + k * B := by ring
    rw [hsm] at hs ⊢
    have hstep : s.index_in_train_epoch + B ≤ s.num_train_images := by
      have h2 := hs
      generalize k * B = m at h2
      omega
    rw [run_train, next_train_batch_no_rollover s B perm hstep]
    dsimp only
    have hnext : ({ s with index_in_train_epoch := s.index_in_train_epoch + B }
          : DataState).index_in_train_epoch + k * B
        ≤ ({ s with index_in_train_epoch := s.index_in_train_epoch + B }
          : DataState).num_train_images := by
      dsimp only
      have h2 := hs
      generalize k * B = m at h2 ⊢
      omega
    rw [ih _ hnext]
    dsimp only
    rw [pySlice_eq, Nat.add_sub_cancel_left, List.take_add, List.drop_drop,
      ← Nat.add_assoc]

/-- C3 (amended): for a fresh train epoch over a partition of size S and a
batch size B with 0 < B, B ∣ S and 0 < S, the S / B calls of the epoch
collect every label of the partition exactly once and in order, leave the
epoch counter untouched, and the very next call increments the counter by
exactly one.  (The counterexample shows the original claim fails whenever B
does not divide S.) -/
theorem C3_train_epoch_coverage (s : DataState) (B : Nat) (perm : List Nat)
    (hB : 0 < B) (hdvd : B ∣ s.num_train_images) (hS : 0 < s.num_train_images)
    (hidx : s.index_in_train_epoch = 0)
    (hlen : s.train_labels.length = s.num_train_images) :
    run_train B perm (s.num_train_images / B) s
      = Except.ok ({ s with index_in_train_epoch := s.num_train_images },
          s.train_labels) ∧
    (next_train_batch { s with index_in_train_epoch := s.num_train_images } B
        perm).map (fun r => r.1.train_epochs_completed)
      = Except.ok (s.train_epochs_completed + 1) := by
  have hmul : s.num_train_images / B * B = s.num_train_images := Nat.div_mul_cancel hdvd
  constructor
  · have h0 : s.index_in_train_epoch + (s.num_train_images / B) * B
        ≤ s.num_train_images := by
      rw [hidx, hmul]
      omega
    rw [run_train_no_rollover B perm _ s h0, hidx, hmul]
    rw [Nat.zero_add, List.drop_zero, ← hlen, List.take_length]
  · have hBS : B ≤ s.num_train_images := Nat.le_of_dvd hS hdvd
    rw [next_train_batch_rollover _ B perm (by dsimp only; omega) (by dsimp only; exact hBS)]
    rfl

/-- Closed instance of C3_train_epoch_coverage: partition of size 4, batch
size 2: the two calls of the epoch return [1, 2] and [3, 4], and the third
call bumps the epoch counter. -/
theorem C3_witness :
    run_train 2 [0, 1, 2, 3] (c3_state.num_train_images / 2) c3_state
      = Except.ok ({ c3_state with index_in_train_epoch := c3_state.num_train_images },
          c3_state.train_labels) ∧
    (next_train_batch { c3_state with index_in_train_epoch := c3_state.num_train_images }
        2 [0, 1, 2, 3]).map (fun r => r.1.train_epochs_completed)
      = Except.ok (c3_state.train_epochs_completed + 1) :=
  C3_train_epoch_coverage c3_state 2 [0, 1, 2, 3] (by decide) ⟨2, rfl⟩ (by decide)
    rfl rfl

/-- C3 counterexample: partition of size 3 with labels [10, 20, 30] and batch
size 2 (2 ≤ 3 but 2 does not divide 3): the second call already rolls the
epoch over (the counter reaches 1), yet the batches returned so far are
[10, 20] and then [10, 20] of the new epoch — the element 30 is never
returned during the completed first epoch, so not every element is covered
once per epoch. -/
theorem C3_counterexample :
    run_train 2 [0, 1, 2] 2 c3_ce_state
      = Except.ok ({ c3_ce_state with
            train_epochs_completed := 1,
            train_images := applyPerm [0, 1, 2] c3_ce_state.train_images,
            train_labels := applyPerm [0, 1, 2] c3_ce_state.train_labels,
            index_in_train_epoch := 2 },
          [10, 20, 10, 20]) ∧
    (30 : ℚ) ∈ c3_ce_state.train_labels ∧
    (30 : ℚ) ∉ ([10, 20, 10, 20] : List ℚ) := by
  refine ⟨rfl, by decide, by decide⟩

/-- C4 (amended): every epoch cursor advances monotonically (strictly, for a
request of at least 1), but only the train cursor ever resets: a train call
whose advance would exceed the partition size resets the cursor to
batch_size, reshuffles images and labels with one permutation and increments
the epoch counter, while a non-overflowing train call merely advances the
cursor; the valid and test cursors never reset (the counterexample shows
them growing beyond the partition size).  -/
theorem C4_cursor_reset (s1 s2 s3 : DataState) (B C Bv : Nat) (perm : List Nat)
    (hBv : 1 ≤ Bv)
    (h1a : s1.num_train_images < s1.index_in_train_epoch + B)
    (h1b : B ≤ s1.num_train_images)
    (h2 : s2.index_in_train_epoch + C ≤ s2.num_train_images) :
    s3.index_in_valid_epoch < (next_valid_batch s3 Bv).1.index_in_valid_epoch ∧
    s3.index_in_test_epoch < (next_test_batch s3 Bv).1.index_in_test_epoch ∧
    (next_train_batch s1 B perm).map
        (fun r => (r.1.index_in_train_epoch, r.1.train_epochs_completed,
                   r.1.train_labels, r.1.train_images))
      = Except.ok (B, s1.train_epochs_completed + 1,
                   applyPerm perm s1.train_labels, applyPerm perm s1.train_images) ∧
    (next_train_batch s2 C perm).map
        (fun r => (r.1.index_in_train_epoch, r.1.train_epochs_completed,
                   r.1.train_labels, r.1.train_images))
      = Except.ok (s2.index_in_train_epoch + C, s2.train_epochs_completed,
                   s2.train_labels, s2.train_images) := by
  refine ⟨?_, ?_, ?_, ?_⟩
  · simp only [next_valid_batch]
    split <;> omega
  · simp only [next_test_batch]
    split <;> omega
  · rw [next_train_batch_rollover s1 B perm h1a h1b]
    rfl
  · rw [next_train_batch_no_rollover s2 C perm h2]
    rfl

/-- Closed instance of C4_cursor_reset: rollover at cursor 2 with batch 1 on
a train partition of size 2, a non-overflowing call with batch 2 from cursor
0, and strict cursor advance for the valid/test partitions. -/
theorem C4_witness :
    c4_state.index_in_valid_epoch < (next_valid_batch c4_state 1).1.index_in_valid_epoch ∧
    c4_state.index_in_test_epoch < (next_test_batch c4_state 1).1.index_in_test_epoch ∧
    (next_train_batch c4_ro_state 1 [1, 0]).map
        (fun r => (r.1.index_in_train_epoch, r.1.train_epochs_completed,
                   r.1.train_labels, r.1.train_images))
      = Except.ok (1, c4_ro_state.train_epochs_completed + 1,
                   applyPerm [1, 0] c4_ro_state.train_labels,
                   applyPerm [1, 0] c4_ro_state.train_images) ∧
    (next_train_batch c4_state 2 [1, 0]).map
        (fun r => (r.1.index_in_train_epoch, r.1.train_epochs_completed,
                   r.1.train_labels, r.1.train_images))
      = Except.ok (c4_state.index_in_train_epoch + 2, c4_state.train_epochs_completed,
                   c4_state.train_labels, c4_state.train_images) :=
  C4_cursor_reset c4_ro_state c4_state c4_state 1 2 1 [1, 0]
    (by decide) (by decide) (by decide) (by decide)

/-- C4 counterexample: in c4_ce_state the valid cursor is 3, already beyond
the partition size 2, yet two further next_valid_batch calls advance it to 4
and then 5 instead of resetting it to the beginning of the partition: the
valid (and likewise the test) cursor never resets. -/
theorem C4_counterexample :
    c4_ce_state.num_valid_images = 2 ∧
    c4_ce_state.index_in_valid_epoch = 3 ∧
    (next_valid_batch c4_ce_state 1).1.index_in_valid_epoch = 4 ∧
    (next_valid_batch (next_valid_batch c4_ce_state 1).1 1).1.index_in_valid_epoch = 5 := by
  refine ⟨rfl, rfl, by decide, by decide⟩

/-- dlookup after dinsert: the inserted key reads the new value, every other
key is unchanged. -/
theorem dlookup_dinsert (d : Dict) (k k2 : String) (v : PyVal) :
    dlookup (dinsert d k v) k2 = if k = k2 then some v else dlookup d k2 := by
  induction d with
  | nil => simp [dinsert, dlookup]
  | cons kv rest ih =>
    obtain ⟨k0, v0⟩ := kv
    by_cases h0 : k0 = k
    · subst h0
      simp only [dinsert, if_pos rfl, dlookup]
      by_cases h2 : k0 = k2
      · subst h2
        simp
      · simp [h2]
    · simp only [dinsert, if_neg h0, dlookup]
      by_cases h2 : k0 = k2
      · subst h2
        have hne : ¬ k = k0 := fun he => h0 he.symm
        simp [hne]
      · rw [if_neg h2, if_neg h2, ih]

/-- fill_default does not change the binding of a key that is present. -/
theorem fill_default_present (d : Dict) (k0 k : String) (v : PyVal)
    (h : dcontains d k = true) :
    dlookup (fill_default d k0 v) k = dlookup d k := by
  unfold fill_default
  split
  · rfl
  · rename_i hk0
    rw [dlookup_dinsert]
    split
    · rename_i he
      subst he
      exact absurd h hk0
    · rfl

/-- fill_default does not change the binding of any other key. -/
theorem fill_default_ne (d : Dict) (k0 k : String) (v : PyVal) (h : ¬ k0 = k) :
    dlookup (fill_default d k0 v) k = dlookup d k := by
  unfold fill_default
  split
  · rfl
  · rw [dlookup_dinsert, if_neg h]

/-- fill_default sets an absent key to the default value. -/
theorem fill_default_absent (d : Dict) (k : String) (v : PyVal)
    (h : dcontains d k = false) :
    dlookup (fill_default d k v) k = some v := by
  unfold fill_default
  rw [if_neg (by simp [h]), dlookup_dinsert, if_pos rfl]

/-- A present key stays present across fill_default. -/
theorem dcontains_fill_default_of (d : Dict) (k0 k : String) (v : PyVal)
    (h : dcontains d k = true) : dcontains (fill_default d k0 v) k = true := by
  unfold dcontains
  rw [fill_default_present d k0 k v h]
  exact h

/-- fill_default at one key does not affect containment of another key. -/
theorem dcontains_fill_default_ne (d : Dict) (k0 k : String) (v : PyVal)
    (h : ¬ k0 = k) : dcontains (fill_default d k0 v) k = dcontains d k := by
  unfold dcontains
  rw [fill_default_ne d k0 k v h]

/-- fill_defaults leaves every key that is already present unchanged. -/
theorem fill_defaults_present (d : Dict) (k : String) (h : dcontains d k = true) :
    dlookup (fill_defaults d) k = dlookup d k := by
  simp only [fill_defaults, List.foldl_cons, List.foldl_nil]
  have c1 := dcontains_fill_default_of d "RESTORE_SLIM_FILE" k PyVal.pynone h
  have c2 := dcontains_fill_default_of _ "RESTORE_META" k PyVal.pynone c1
  have c3 := dcontains_fill_default_of _ "RESTORE_SLIM" k PyVal.pynone c2
  have c4 := dcontains_fill_default_of _ "SEED" k PyVal.pynone c3
  have c5 := dcontains_fill_default_of _ "GPU" k PyVal.pynone c4
  have c6 := dcontains_fill_default_of _ "RUN_NUM" k (PyVal.int 0) c5
  rw [fill_default_present _ _ _ _ c6, fill_default_present _ _ _ _ c5,
      fill_default_present _ _ _ _ c4, fill_default_present _ _ _ _ c3,
      fill_default_present _ _ _ _ c2, fill_default_present _ _ _ _ c1,
      fill_default_present _ _ _ _ h]

/-- An absent RESTORE_SLIM_FILE is defaulted to None. -/
theorem fill_defaults_restore_slim_file (d : Dict)
    (h : dcontains d "RESTORE_SLIM_FILE" = false) :
    dlookup (fill_defaults d) "RESTORE_SLIM_FILE" = some PyVal.pynone := by
  simp only [fill_defaults, List.foldl_cons, List.foldl_nil]
  rw [fill_default_ne _ _ _ _ (by decide), fill_default_ne _ _ _ _ (by decide),
      fill_default_ne _ _ _ _ (by decide), fill_default_ne _ _ _ _ (by decide),
      fill_default_ne _ _ _ _ (by decide), fill_default_ne _ _ _ _ (by decide),
      fill_default_absent _ _ _ h]

/-- An absent RESTORE_META is defaulted to None. -/
theorem fill_defaults_restore_meta (d : Dict)
    (h : dcontains d "RESTORE_META" = false) :
    dlookup (fill_defaults d) "RESTORE_META" = some PyVal.pynone := by
  simp only [fill_defaults, List.foldl_cons, List.foldl_nil]
  rw [fill_default_ne _ _ _ _ (by decide), fill_default_ne _ _ _ _ (by decide),
      fill_default_ne _ _ _ _ (by decide), fill_default_ne _ _ _ _ (by decide),
      fill_default_ne _ _ _ _ (by decide), fill_default_absent _ _ _ ?hc]
  rw [dcontains_fill_default_ne _ _ _ _ (by decide)]
  exact h

/-- An absent RESTORE_SLIM is defaulted to None. -/
theorem fill_defaults_restore_slim (d : Dict)
    (h : dcontains d "RESTORE_SLIM" = false) :
    dlookup (fill_defaults d) "RESTORE_SLIM" = some PyVal.pynone := by
  simp only [fill_defaults, List.foldl_cons, List.foldl_nil]
  rw [fill_default_ne _ _ _ _ (by decide), fill_default_ne _ _ _ _ (by decide),
      fill_default_ne _ _ _ _ (by decide), fill_default_ne _ _ _ _ (by decide),
      fill_default_absent _ _ _ ?hc]
  rw [dcontains_fill_default_ne _ _ _ _ (by decide),
      dcontains_fill_default_ne _ _ _ _ (by decide)]
  exact h

/-- An absent SEED is defaulted to None. -/
theorem fill_defaults_seed (d : Dict) (h : dcontains d "SEED" = false) :
    dlookup (fill_defaults d) "SEED" = some PyVal.pynone := by
  simp only [fill_defaults, List.foldl_cons, List.foldl_nil]
  rw [fill_default_ne _ _ _ _ (by decide), fill_default_ne _ _ _ _ (by decide),
      fill_default_ne _ _ _ _ (by decide), fill_default_absent _ _ _ ?hc]
  rw [dcontains_fill_default_ne _ _ _ _ (by decide),
      dcontains_fill_default_ne _ _ _ _ (by decide),
      dcontains_fill_default_ne _ _ _ _ (by decide)]
  exact h

/-- An absent GPU is defaulted to None. -/
theorem fill_defaults_gpu (d : Dict) (h : dcontains d "GPU" = false) :
    dlookup (fill_defaults d) "GPU" = some PyVal.pynone := by
  simp only [fill_defaults, List.foldl_cons, List.foldl_nil]
  rw [fill_default_ne _ _ _ _ (by decide), fill_default_ne _ _ _ _ (by decide),
      fill_default_absent _ _ _ ?hc]
  rw [dcontains_fill_default_ne _ _ _ _ (by decide),
      dcontains_fill_default_ne _ _ _ _ (by decide),
      dcontains_fill_default_ne _ _ _ _ (by decide),
      dcontains_fill_default_ne _ _ _ _ (by decide)]
  exact h

/-- An absent RUN_NUM is defaulted to 0. -/
theorem fill_defaults_run_num (d : Dict) (h : dcontains d "RUN_NUM" = false) :
    dlookup (fill_defaults d) "RUN_NUM" = some (PyVal.int 0) := by
  simp only [fill_defaults, List.foldl_cons, List.foldl_nil]
  rw [fill_default_ne _ _ _ _ (by decide), fill_default_absent _ _ _ ?hc]
  rw [dcontains_fill_default_ne _ _ _ _ (by decide),
      dcontains_fill_default_ne _ _ _ _ (by decide),
      dcontains_fill_default_ne _ _ _ _ (by decide),
      dcontains_fill_default_ne _ _ _ _ (by decide),
      dcontains_fill_default_ne _ _ _ _ (by decide)]
  exact h

/-- An absent NUM_EPOCHS is defaulted to 1. -/
theorem fill_defaults_num_epochs (d : Dict) (h : dcontains d "NUM_EPOCHS" = false) :
    dlookup (fill_defaults d) "NUM_EPOCHS" = some (PyVal.int 1) := by
  simp only [fill_defaults, List.foldl_cons, List.foldl_nil]
  rw [fill_default_absent _ _ _ ?hc]
  rw [dcontains_fill_default_ne _ _ _ _ (by decide),
      dcontains_fill_default_ne _ _ _ _ (by decide),
      dcontains_fill_default_ne _ _ _ _ (by decide),
      dcontains_fill_default_ne _ _ _ _ (by decide),
      dcontains_fill_default_ne _ _ _ _ (by decide),
      dcontains_fill_default_ne _ _ _ _ (by decide)]
  exact h

/-- C5: check_dict_keys exits (Except.error) whenever MODEL_DIRECTORY or
SAVE_DIRECTORY is absent; otherwise it returns the mapping with every absent
optional key among RESTORE_SLIM_FILE, RESTORE_META, RESTORE_SLIM, SEED, GPU
set to None, RUN_NUM defaulted to 0, NUM_EPOCHS defaulted to 1, and every key
already present left unchanged. -/
theorem C5_check_dict_keys (d d0 : Dict) (k : String)
    (h1 : dcontains d "MODEL_DIRECTORY" = true)
    (h2 : dcontains d "SAVE_DIRECTORY" = true)
    (h0 : dcontains d0 "MODEL_DIRECTORY" = false ∨ dcontains d0 "SAVE_DIRECTORY" = false)
    (hk : dcontains d k = true) :
    check_dict_keys d0 = Except.error () ∧
    check_dict_keys d = Except.ok (fill_defaults d) ∧
    dlookup (fill_defaults d) k = dlookup d k ∧
    (dcontains d "RESTORE_SLIM_FILE" = false →
       dlookup (fill_defaults d) "RESTORE_SLIM_FILE" = some PyVal.pynone) ∧
    (dcontains d "RESTORE_META" = false →
       dlookup (fill_defaults d) "RESTORE_META" = some PyVal.pynone) ∧
    (dcontains d "RESTORE_SLIM" = false →
       dlookup (fill_defaults d) "RESTORE_SLIM" = some PyVal.pynone) ∧
    (dcontains d "SEED" = false →
       dlookup (fill_defaults d) "SEED" = some PyVal.pynone) ∧
    (dcontains d "GPU" = false →
       dlookup (fill_defaults d) "GPU" = some PyVal.pynone) ∧
    (dcontains d "RUN_NUM" = false →
       dlookup (fill_defaults d) "RUN_NUM" = some (PyVal.int 0)) ∧
    (dcontains d "NUM_EPOCHS" = false →
       dlookup (fill_defaults d) "NUM_EPOCHS" = some (PyVal.int 1)) := by
  refine ⟨?_, ?_, fill_defaults_present d k hk,
    fill_defaults_restore_slim_file d, fill_defaults_restore_meta d,
    fill_defaults_restore_slim d, fill_defaults_seed d, fill_defaults_gpu d,
    fill_defaults_run_num d, fill_defaults_num_epochs d⟩
  · unfold check_dict_keys
    rcases h0 with h0 | h0
    · rw [if_pos h0]
    · by_cases hm : dcontains d0 "MODEL_DIRECTORY" = false
      · rw [if_pos hm]
      · rw [if_neg hm, if_pos h0]
  · unfold check_dict_keys
    rw [if_neg (by simp [h1]), if_neg (by simp [h2])]

/-- Closed instance of C5_check_dict_keys: a dict holding only the two
crucial keys gets all seven defaults filled in; the empty dict exits. -/
theorem C5_witness :
    check_dict_keys [] = Except.error () ∧
    check_dict_keys [("MODEL_DIRECTORY", PyVal.str "m"), ("SAVE_DIRECTORY", PyVal.str "s")]
      = Except.ok (fill_defaults
          [("MODEL_DIRECTORY", PyVal.str "m"), ("SAVE_DIRECTORY", PyVal.str "s")]) ∧
    dlookup (fill_defaults
        [("MODEL_DIRECTORY", PyVal.str "m"), ("SAVE_DIRECTORY", PyVal.str "s")])
        "MODEL_DIRECTORY"
      = dlookup [("MODEL_DIRECTORY", PyVal.str "m"), ("SAVE_DIRECTORY", PyVal.str "s")]
          "MODEL_DIRECTORY" ∧
    (dcontains [("MODEL_DIRECTORY", PyVal.str "m"), ("SAVE_DIRECTORY", PyVal.str "s")]
        "RESTORE_SLIM_FILE" = false →
      dlookup (fill_defaults
          [("MODEL_DIRECTORY", PyVal.str "m"), ("SAVE_DIRECTORY", PyVal.str "s")])
          "RESTORE_SLIM_FILE" = some PyVal.pynone) ∧
    (dcontains [("MODEL_DIRECTORY", PyVal.str "m"), ("SAVE_DIRECTORY", PyVal.str "s")]
        "RESTORE_META" = false →
      dlookup (fill_defaults
          [("MODEL_DIRECTORY", PyVal.str "m"), ("SAVE_DIRECTORY", PyVal.str "s")])
          "RESTORE_META" = some PyVal.pynone) ∧
    (dcontains [("MODEL_DIRECTORY", PyVal.str "m"), ("SAVE_DIRECTORY", PyVal.str "s")]
        "RESTORE_SLIM" = false →
      dlookup (fill_defaults
          [("MODEL_DIRECTORY", PyVal.str "m"), ("SAVE_DIRECTORY", PyVal.str "s")])
          "RESTORE_SLIM" = some PyVal.pynone) ∧
    (dcontains [("MODEL_DIRECTORY", PyVal.str "m"), ("SAVE_DIRECTORY", PyVal.str "s")]
        "SEED" = false →
      dlookup (fill_defaults
          [("MODEL_DIRECTORY", PyVal.str "m"), ("SAVE_DIRECTORY", PyVal.str "s")])
          "SEED" = some PyVal.pynone) ∧
    (dcontains [("MODEL_DIRECTORY", PyVal.str "m"), ("SAVE_DIRECTORY", PyVal.str "s")]
        "GPU" = false →
      dlookup (fill_defaults
          [("MODEL_DIRECTORY", PyVal.str "m"), ("SAVE_DIRECTORY", PyVal.str "s")])
          "GPU" = some PyVal.pynone) ∧
    (dcontains [("MODEL_DIRECTORY", PyVal.str "m"), ("SAVE_DIRECTORY", PyVal.str "s")]
        "RUN_NUM" = false →
      dlookup (fill_defaults
          [("MODEL_DIRECTORY", PyVal.str "m"), ("SAVE_DIRECTORY", PyVal.str "s")])
          "RUN_NUM" = some (PyVal.int 0)) ∧
    (dcontains [("MODEL_DIRECTORY", PyVal.str "m"), ("SAVE_DIRECTORY", PyVal.str "s")]
        "NUM_EPOCHS" = false →
      dlookup (fill_defaults
          [("MODEL_DIRECTORY", PyVal.str "m"), ("SAVE_DIRECTORY", PyVal.str "s")])
          "NUM_EPOCHS" = some (PyVal.int 1)) :=
  C5_check_dict_keys
    [("MODEL_DIRECTORY", PyVal.str "m"), ("SAVE_DIRECTORY", PyVal.str "s")] [] "MODEL_DIRECTORY"
    (by decide) (by decide) (Or.inl (by decide)) (by decide)

/-- Length of a defaulted argument list: a supplied list keeps its length, a
None argument is replaced by a replicate of the right length. -/
theorem getD_replicate_length {α : Type} (o : Option (List α)) (x : α) (n : Nat)
    (h : ∀ l, o = some l → l.length = n) :
    (o.getD (List.replicate n x)).length = n := by
  cases o with
  | none => simp
  | some l => simpa using h l rfl

/-- Folding conv2d over a list of layer indices appends exactly the indexed
parameter records, in order. -/
theorem convnet_fold_ops (g : Nat → ConvParams) :
    ∀ (L : List Nat) (b : Builder),
      ((L.foldl (fun bb l => conv2d bb (g l)) b).ops).map Prod.snd
        = b.ops.map Prod.snd ++ L.map g := by
  intro L
  induction L with
  | nil =>
    intro b
    simp
  | cons x xs ih =>
    intro b
    simp only [List.foldl_cons, List.map_cons]
    rw [ih]
    simp [conv2d, conv2d_scope]

/-- Folding deconv2d over a list of layer indices appends exactly the indexed
parameter records, in order. -/
theorem deconvnet_fold_ops (g : Nat → ConvParams) :
    ∀ (L : List Nat) (b : Builder),
      ((L.foldl (fun bb l => deconv2d bb (g l)) b).ops).map Prod.snd
        = b.ops.map Prod.snd ++ L.map g := by
  intro L
  induction L with
  | nil =>
    intro b
    simp
  | cons x xs ih =>
    intro b
    simp only [List.foldl_cons, List.map_cons]
    rw [ih]
    simp [deconv2d]

/-- C8: if any supplied per-layer parameter list of convnet (or deconvnet)
has a length different from the number of filter sizes, the call fails with
the length-mismatch assertion before any layer is built; otherwise it invokes
the single-layer method exactly depth times, appending the per-layer
parameter records in list order. -/
theorem C8_convnet_validation (b b2 : Builder)
    (fs oc : List Int) (st : Option (List Int)) (pd : Option (List String))
    (af : Option (List String)) (bv sv : Option (List Int)) (bn : Option (List Bool))
    (fs2 oc2 : List Int) (st2 : Option (List Int)) (pd2 : Option (List String))
    (af2 : Option (List String)) (bv2 sv2 : Option (List Int)) (bn2 : Option (List Bool))
    (hoc : oc.length = fs.length)
    (hst : ∀ l, st = some l → l.length = fs.length)
    (hpd : ∀ l, pd = some l → l.length = fs.length)
    (haf : ∀ l, af = some l → l.length = fs.length)
    (hbv : ∀ l, bv = some l → l.length = fs.length)
    (hsv : ∀ l, sv = some l → l.length = fs.length)
    (hbn : ∀ l, bn = some l → l.length = fs.length)
    (hbad : oc2.length ≠ fs2.length
      ∨ (∃ l, st2 = some l ∧ l.length ≠ fs2.length)
      ∨ (∃ l, pd2 = some l ∧ l.length ≠ fs2.length)
      ∨ (∃ l, af2 = some l ∧ l.length ≠ fs2.length)
      ∨ (∃ l, bv2 = some l ∧ l.length ≠ fs2.length)
      ∨ (∃ l, sv2 = some l ∧ l.length ≠ fs2.length)
      ∨ (∃ l, bn2 = some l ∧ l.length ≠ fs2.length)) :
    convnet b2 fs2 oc2 st2 pd2 af2 bv2 sv2 bn2 = Except.error () ∧
    deconvnet b2 fs2 oc2 st2 pd2 af2 bv2 sv2 bn2 = Except.error () ∧
    (convnet b fs oc st pd af bv sv bn).map (fun r => r.ops.map Prod.snd)
      = Except.ok (b.ops.map Prod.snd ++ (List.range fs.length).map
          (nth_params fs oc (st.getD (List.replicate fs.length 1))
            (pd.getD (List.replicate fs.length "SAME"))
            (af.getD (List.replicate fs.length "relu"))
            (bv.getD (List.replicate fs.length 0))
            (sv.getD (List.replicate fs.length 1))
            (bn.getD (List.replicate fs.length true)))) ∧
    (deconvnet b fs oc st pd af bv sv bn).map (fun r => r.ops.map Prod.snd)
      = Except.ok (b.ops.map Prod.snd ++ (List.range fs.length).map
          (nth_params fs oc (st.getD (List.replicate fs.length 1))
            (pd.getD (List.replicate fs.length "SAME"))
            (af.getD (List.replicate fs.length "relu"))
            (bv.getD (List.replicate fs.length 0))
            (sv.getD (List.replicate fs.length 1))
            (bn.getD (List.replicate fs.length true)))) := by
  have hbad2 : ¬ lens_ok fs2.length oc2 (st2.getD (List.replicate fs2.length 1))
      (pd2.getD (List.replicate fs2.length "SAME"))
      (af2.getD (List.replicate fs2.length "relu"))
      (bv2.getD (List.replicate fs2.length 0))
      (sv2.getD (List.replicate fs2.length 1))
      (bn2.getD (List.replicate fs2.length true)) := by
    intro hlo
    obtain ⟨ho, hs, hp, ha, hb, hv, hn⟩ := hlo
    rcases hbad with h | h | h | h | h | h | h
    · exact h ho
    · obtain ⟨l, hl, hne⟩ := h
      rw [hl] at hs
      simp at hs
      exact hne hs
    · obtain ⟨l, hl, hne⟩ := h
      rw [hl] at hp
      simp at hp
      exact hne hp
    · obtain ⟨l, hl, hne⟩ := h
      rw [hl] at ha
      simp at ha
      exact hne ha
    · obtain ⟨l, hl, hne⟩ := h
      rw [hl] at hb
      simp at hb
      exact hne hb
    · obtain ⟨l, hl, hne⟩ := h
      rw [hl] at hv
      simp at hv
      exact hne hv
    · obtain ⟨l, hl, hne⟩ := h
      rw [hl] at hn
      simp at hn
      exact hne hn
  have hlo : lens_ok fs.length oc (st.getD (List.replicate fs.length 1))
      (pd.getD (List.replicate fs.length "SAME"))
      (af.getD (List.replicate fs.length "relu"))
      (bv.getD (List.replicate fs.length 0))
      (sv.getD (List.replicate fs.length 1))
      (bn.getD (List.replicate fs.length true)) :=
    ⟨hoc, getD_replicate_length st 1 _ hst, getD_replicate_length pd "SAME" _ hpd,
     getD_replicate_length af "relu" _ haf, getD_replicate_length bv 0 _ hbv,
     getD_replicate_length sv 1 _ hsv, getD_replicate_length bn true _ hbn⟩
  refine ⟨?_, ?_, ?_, ?_⟩
  · simp only [convnet]
    rw [if_neg hbad2]
  · simp only [deconvnet]
    rw [if_neg hbad2]
  · simp only [convnet]
    rw [if_pos hlo]
    simp only [Except.map]
    rw [convnet_fold_ops]
  · simp only [deconvnet]
    rw [if_pos hlo]
    simp only [Except.map]
    rw [deconvnet_fold_ops]

/-- Closed instance of C8_convnet_validation: three filter sizes with only
two output-channel entries fail; two filter sizes with matching lists build
exactly two layers in order. -/
theorem C8_witness :
    convnet ⟨init_count, []⟩ [3, 3, 3] [8, 8] Option.none Option.none Option.none
        Option.none Option.none Option.none = Except.error () ∧
    deconvnet ⟨init_count, []⟩ [3, 3, 3] [8, 8] Option.none Option.none Option.none
        Option.none Option.none Option.none = Except.error () ∧
    (convnet ⟨init_count, []⟩ [3, 5] [8, 16] (some [1, 2]) Option.none Option.none
        Option.none Option.none Option.none).map (fun r => r.ops.map Prod.snd)
      = Except.ok ((⟨init_count, []⟩ : Builder).ops.map Prod.snd
          ++ (List.range ([3, 5] : List Int).length).map
          (nth_params [3, 5] [8, 16]
            ((some [1, 2]).getD (List.replicate ([3, 5] : List Int).length 1))
            (Option.none.getD (List.replicate ([3, 5] : List Int).length "SAME"))
            (Option.none.getD (List.replicate ([3, 5] : List Int).length "relu"))
            (Option.none.getD (List.replicate ([3, 5] : List Int).length 0))
            (Option.none.getD (List.replicate ([3, 5] : List Int).length 1))
            (Option.none.getD (List.replicate ([3, 5] : List Int).length true)))) ∧
    (deconvnet ⟨init_count, []⟩ [3, 5] [8, 16] (some [1, 2]) Option.none Option.none
        Option.none Option.none Option.none).map (fun r => r.ops.map Prod.snd)
      = Except.ok ((⟨init_count, []⟩ : Builder).ops.map Prod.snd
          ++ (List.range ([3, 5] : List Int).length).map
          (nth_params [3, 5] [8, 16]
            ((some [1, 2]).getD (List.replicate ([3, 5] : List Int).length 1))
            (Option.none.getD (List.replicate ([3, 5] : List Int).length "SAME"))
            (Option.none.getD (List.replicate ([3, 5] : List Int).length "relu"))
            (Option.none.getD (List.replicate ([3, 5] : List Int).length 0))
            (Option.none.getD (List.replicate ([3, 5] : List Int).length 1))
            (Option.none.getD (List.replicate ([3, 5] : List Int).length true)))) :=
  C8_convnet_validation ⟨init_count, []⟩ ⟨init_count, []⟩
    [3, 5] [8, 16] (some [1, 2]) Option.none Option.none Option.none Option.none Option.none
    [3, 3, 3] [8, 8] Option.none Option.none Option.none Option.none Option.none Option.none
    (by decide)
    (by rintro l hl; cases hl; decide)
    (by rintro l hl; cases hl)
    (by rintro l hl; cases hl)
    (by rintro l hl; cases hl)
    (by rintro l hl; cases hl)
    (by rintro l hl; cases hl)
    (Or.inl (by decide))

end TensorBase
